import Mathlib

/-!
Shallow embedding of the alzassist backend (backend/server.js).

The server keeps one JSON document (`database.json`) with named entity
sequences and rewrites it wholesale on each mutation.  We model JSON
values, the document, each request handler that the claims mention, the
push dispatcher `sendWebPushNotification`, the reminder timer body, and
the storage functions `readDB` / `writeDB`.

Modelling conventions:
- machine timestamps (`Date.now()`) are a `Nat` parameter `now`;
- JavaScript values that the server never inspects (journal entries,
  push subscriptions, the `caretakers` array, the `payload` attached to
  a medication notification) are kept as opaque `Json` values;
- a JS field that the server sets either to a value or to
  `null`/`undefined` is an `Option`; in the serialized document an
  absent/`null` optional field is encoded as JSON `null` (both are falsy
  for the `||` defaults the server uses);
- notification ids are numbers for the socket handlers
  (`id: Date.now()`) and strings for the HTTP handlers and the reminder
  runner (`id: Date.now().toString()`), so they are a sum type `NId`,
  and `===` against the string route parameter is `NId.strictEqStr`.
-/

/-- JSON values, as produced by `JSON.parse` / consumed by
`JSON.stringify`.  Numbers are integers: every number the server writes
comes from `Date.now()` or arrives in a request body; no claim depends
on fractional values. -/
inductive Json where
  | null : Json
  | bool (b : Bool) : Json
  | num (n : Int) : Json
  | str (s : String) : Json
  | arr (xs : List Json) : Json
  | obj (fields : List (String × Json)) : Json
deriving Repr

/-- A user record, created by `POST /register`:
`{ id: Date.now(), role, name, email, password }`. -/
structure User where
  id : Nat
  role : String
  name : String
  email : String
  password : String
deriving Repr, DecidableEq

/-- A patient record, created by `POST /uploadPerson`:
`{ id: Date.now(), ownerId, name, relation, phone, photo }` where
`photo` is the uploaded filename or `null`. -/
structure Patient where
  id : Nat
  ownerId : String
  name : String
  relation : String
  phone : String
  photo : Option String
deriving Repr, DecidableEq

/-- A location history entry, pushed by the `updateLocation` socket
handler: `{ id: Date.now(), userId, lat, lng, time }`. -/
structure LocationPoint where
  id : Nat
  userId : String
  lat : Int
  lng : Int
  time : Nat
deriving Repr, DecidableEq

/-- A medication, created by `POST /meds`:
`{ id: Date.now().toString(), name, dose, time, forUser, createdAt }`. -/
structure Med where
  id : String
  name : String
  dose : String
  time : String
  forUser : Option String
  createdAt : Nat
deriving Repr, DecidableEq

/-- A medication-taken record, created by `POST /meds/mark`:
`{ id: Date.now().toString(), medId, by, time: Date.now() }`. -/
structure MedRecord where
  id : String
  medId : String
  by_ : String
  time : Nat
deriving Repr, DecidableEq

/-- An appointment, created by `POST /appointments`:
`{ id: Date.now().toString(), title, time: Number(time), forUser,
notes, createdAt }`. -/
structure Appointment where
  id : String
  title : String
  time : Nat
  forUser : Option String
  notes : String
  createdAt : Nat
deriving Repr, DecidableEq

/-- A notification id: the socket handlers store the number
`Date.now()`, the HTTP handlers and the reminder runner store the
string `Date.now().toString()`. -/
inductive NId where
  | ofNum (n : Nat) : NId
  | ofStr (s : String) : NId
deriving Repr, DecidableEq

/-- JavaScript strict equality `n.id === id` between a stored
notification id and the (string) route parameter: a number is never
`===` to a string. -/
def NId.strictEqStr : NId → String → Bool
  | NId.ofNum _, _ => false
  | NId.ofStr s, i => s == i

/-- A notification.  `type` is one of `sos`, `journal`, `med`,
`appointment`; the variant extra fields (`from` — here `from_`, a Lean
keyword — `payload`, `appointment`) are absent for the types that do
not set them.  `payload` is the raw `medicationUpdate` event payload,
kept as `Json` with `Json.null` for absent (the persisted JSON cannot
distinguish a missing key from `null`, and the server never reads the
field). -/
structure Notif where
  id : NId
  type : String
  message : String
  time : Nat
  read : Bool
  from_ : Option String
  payload : Json
  appointment : Option Appointment
deriving Repr

/-- The persisted document: top-level sequences `users, patients,
caretakers, notifications, locationHistory, meds, journals,
appointments, webpushSubscriptions`, plus the lazily added
`medHistory`.  The server never writes to `caretakers`, and journal
entries and push subscriptions are stored verbatim from the request, so
those stay opaque `Json`. -/
structure DB where
  users : List User
  patients : List Patient
  caretakers : List Json
  notifications : List Notif
  locationHistory : List LocationPoint
  meds : List Med
  journals : List Json
  appointments : List Appointment
  webpushSubscriptions : List Json
  medHistory : Option (List MedRecord)
deriving Repr

/-- The empty default document `readDB` initializes when the file is
absent or unparsable (no `medHistory` key). -/
def emptyDB : DB :=
  { users := [], patients := [], caretakers := [], notifications := []
    locationHistory := [], meds := [], journals := [], appointments := []
    webpushSubscriptions := [], medHistory := none }

/-! ## Request handlers (pure load-mutate-save bodies) -/

/-- Response of `POST /register`: an HTTP status (Express defaults to
200 for `res.json`) and the `message` field of the JSON body. -/
structure RegResponse where
  status : Nat
  message : String
deriving Repr, DecidableEq

/-- `app.post('/register')`: reload, reject when some user already has
the given email (status 400, no write), otherwise append
`{ id: Date.now(), role, name, email, password }` and save. -/
def register (db : DB) (role name email password : String) (now : Nat) :
    RegResponse × DB :=
  if (db.users.find? (fun u => u.email == email)).isSome then
    ({ status := 400, message := "Email already exists" }, db)
  else
    ({ status := 200, message := "Registered successfully" },
      { db with users := db.users ++ [{ id := now, role := role, name := name
                                        email := email, password := password }] })

/-- `app.delete('/meds/:id')`: keep exactly the medications whose `id`
is not (`!==`) the route parameter. -/
def deleteMed (db : DB) (id : String) : DB :=
  { db with meds := db.meds.filter (fun m => m.id != id) }

/-- Response of `POST /meds/mark`: `{ ok: true, record }`. -/
structure MarkResponse where
  ok : Bool
  record : MedRecord
deriving Repr, DecidableEq

/-- `app.post('/meds/mark')`: `hist = db.medHistory || []`, append one
`{ id: Date.now().toString(), medId, by, time: Date.now() }` and save;
always answers `{ ok: true, record }`. -/
def markTaken (db : DB) (medId by_ : String) (now : Nat) :
    MarkResponse × DB :=
  let hist := db.medHistory.getD []
  let record : MedRecord := { id := toString now, medId := medId, by_ := by_, time := now }
  ({ ok := true, record := record },
    { db with medHistory := some (hist ++ [record]) })

/-- The per-notification body of `db.notifications.map` in
`app.delete('/notifications/:id')`: `n.id === id ? {...n, read: true} : n`. -/
def markReadFn (id : String) (n : Notif) : Notif :=
  if n.id.strictEqStr id then { n with read := true } else n

/-- `app.delete('/notifications/:id')` (mark read): map `markReadFn`
over the notification sequence and save. -/
def markRead (db : DB) (id : String) : DB :=
  { db with notifications := db.notifications.map (markReadFn id) }

/-! ## Socket handlers -/

/-- JavaScript truthiness of an optional string: `undefined` and the
empty string are falsy. -/
def jsTruthyStr : Option String → Bool
  | some s => s != ""
  | none => false

/-- JavaScript `a || b` on optional strings. -/
def jsOrStr (a b : Option String) : Option String :=
  if jsTruthyStr a then a else b

/-- How a template literal renders an optional string (`undefined`
prints as the word `undefined`). -/
def jsTemplStr : Option String → String
  | some s => s
  | none => "undefined"

/-- JavaScript `t || Date.now()` on an optional number: `undefined`
and `0` are falsy. -/
def jsOrNow : Option Nat → Nat → Nat
  | some v, now => if v != 0 then v else now
  | none, now => now

/-- Payload of the `sos` socket event: `{ from, name, time }`, any of
which the client may omit. -/
structure SosPayload where
  from_ : Option String
  name : Option String
  time : Option Nat
deriving Repr, DecidableEq

/-- The notification built by `socket.on('sos')`: numeric id
`Date.now()`, message `SOS from ${payload.name || payload.from}`. -/
def sosNotif (p : SosPayload) (now : Nat) : Notif :=
  { id := NId.ofNum now, type := "sos"
    message := "SOS from " ++ jsTemplStr (jsOrStr p.name p.from_)
    from_ := p.from_, time := jsOrNow p.time now, read := false
    payload := Json.null, appointment := none }

/-- The notification built by `socket.on('journal')`: numeric id
`Date.now()`, message `New journal from ${payload.author}`. -/
def journalNotif (author : Option String) (now : Nat) : Notif :=
  { id := NId.ofNum now, type := "journal"
    message := "New journal from " ++ jsTemplStr author
    from_ := none, time := now, read := false
    payload := Json.null, appointment := none }

/-- The notification built by `socket.on('medicationUpdate')`: numeric
id `Date.now()`, the raw event payload attached under `payload`. -/
def medUpdateNotif (payload : Json) (now : Nat) : Notif :=
  { id := NId.ofNum now, type := "med", message := "Medication updated"
    from_ := none, time := now, read := false
    payload := payload, appointment := none }

/-! ## Realtime hub events -/

/-- A broadcast on the hub (`io.emit`), with its structured payload. -/
inductive Event where
  | sosEvt (p : SosPayload) : Event
  | journalEvt (entry : Json) (author : Option String) : Event
  | medicationUpdate (p : Json) : Event
  | appointmentReminder (a : Appointment) : Event
  | notification (n : Notif) : Event
deriving Repr

/-! ## Reminder runner -/

/-- The notification synthesized by the reminder runner for a due
appointment: string id `Date.now().toString()`, message
`Upcoming: ${a.title}`, the appointment attached. -/
def reminderNotif (a : Appointment) (now : Nat) : Notif :=
  { id := NId.ofStr (toString now), type := "appointment"
    message := "Upcoming: " ++ a.title
    from_ := none, time := now, read := false
    payload := Json.null, appointment := some a }

/-- The filter of the reminder runner,
`a.time && a.time > now && a.time <= now + (60 * 1000)`: the leading
conjunct is JS truthiness of `a.time` (`0` is falsy). -/
def soonPred (now : Nat) (a : Appointment) : Bool :=
  a.time != 0 && decide (a.time > now) && decide (a.time ≤ now + 60 * 1000)

/-- One iteration of the runner's `forEach`: push the synthesized
notification (and save), emit `appointmentReminder` and
`notification`, call the push dispatcher.  The accumulator carries the
document plus the emitted events and dispatched payloads so far. -/
def tickStep (now : Nat) (acc : DB × List Event × List Notif) (a : Appointment) :
    DB × List Event × List Notif :=
  let n := reminderNotif a now
  ({ acc.1 with notifications := acc.1.notifications ++ [n] },
    acc.2.1 ++ [Event.appointmentReminder a, Event.notification n],
    acc.2.2 ++ [n])

/-- The body of `setInterval`: reload, select the appointments due
within the next minute, and handle each in turn. -/
def tick (db : DB) (now : Nat) : DB × List Event × List Notif :=
  (db.appointments.filter (soonPred now)).foldl (tickStep now) (db, [], [])

/-! ## Push dispatcher -/

/-- The dispatcher's environment: the two VAPID key strings (defaulted
to `''` when the variables are unset) and an oracle saying which
subscriptions' delivery attempts are rejected by the push service. -/
structure PushEnv where
  vapidPublic : String
  vapidPrivate : String
  fails : Json → Bool

/-- One `webpush.sendNotification(s, ...)` call: fulfilled or rejected
according to the environment. -/
def attemptPush (env : PushEnv) (s : Json) : Except String Unit :=
  if env.fails s then Except.error "webpush error" else Except.ok ()

/-- The `.catch(err => console.warn(...))` chained onto each delivery
promise: a rejection is logged and the chained promise fulfills. -/
def caught : Except String Unit → Except String Unit
  | Except.error _ => Except.ok ()
  | Except.ok u => Except.ok u

/-- `Promise.allSettled`: fulfills with every input's settled outcome;
it never rejects. -/
def allSettled (rs : List (Except String Unit)) :
    Except String (List (Except String Unit)) :=
  Except.ok rs

/-- What a call of the dispatcher did: which subscriptions got a
delivery attempt, each attempt's settled outcome, and whether the call
itself returned normally or threw. -/
structure PushOutcome where
  attempted : List Json
  settled : List (Except String Unit)
  result : Except String Unit

/-- `sendWebPushNotification(payload)`: reload the document; when
either VAPID key is unset (falsy), log and return without touching any
subscription; otherwise map every stored subscription to a delivery
attempt with a per-attempt `.catch`, and `await Promise.allSettled`. -/
def sendWebPushNotification (env : PushEnv) (db : DB) : PushOutcome :=
  let subs := db.webpushSubscriptions
  if env.vapidPublic == "" || env.vapidPrivate == "" then
    { attempted := [], settled := [], result := Except.ok () }
  else
    let promiseList := subs.map (fun s => caught (attemptPush env s))
    { attempted := subs, settled := promiseList
      result := (allSettled promiseList).map (fun _ => ()) }

/-! ## Serialization (`JSON.stringify` / `JSON.parse`)

The document is written with `JSON.stringify(data, null, 2)` and read
back with `JSON.parse`.  We model the JSON text by its parse tree
(`Json`), so `writeDB` stores `serializeDB d` and `readDB` decodes it.
An optional field that is `null`/absent is encoded as `Json.null`. -/

/-- Encode a `Nat` timestamp as a JSON number. -/
def jsonOfNat (n : Nat) : Json := Json.num (Int.ofNat n)

/-- Decode a JSON value as a `Nat` (a nonnegative number). -/
def natOfJson : Json → Option Nat
  | Json.num i => if 0 ≤ i then some i.toNat else none
  | _ => none

/-- Decode a JSON value as an `Int`. -/
def intOfJson : Json → Option Int
  | Json.num i => some i
  | _ => none

/-- Decode a JSON value as a string. -/
def strOfJson : Json → Option String
  | Json.str s => some s
  | _ => none

/-- Encode an optional string (`null` when absent). -/
def jsonOfOptStr : Option String → Json
  | some s => Json.str s
  | none => Json.null

/-- Decode an optional string. -/
def optStrOfJson : Json → Option (Option String)
  | Json.str s => some (some s)
  | Json.null => some none
  | _ => none

/-- Encode a notification id (number or string). -/
def jsonOfNId : NId → Json
  | NId.ofNum n => jsonOfNat n
  | NId.ofStr s => Json.str s

/-- Decode a notification id. -/
def nidOfJson : Json → Option NId
  | Json.num i => if 0 ≤ i then some (NId.ofNum i.toNat) else none
  | Json.str s => some (NId.ofStr s)
  | _ => none

/-- Decode every element of a JSON array, failing if any element
fails. -/
def decodeList {α : Type} (g : Json → Option α) : List Json → Option (List α)
  | [] => some []
  | j :: js =>
    match g j, decodeList g js with
    | some a, some rest => some (a :: rest)
    | _, _ => none

/-- Encode a user. -/
def serializeUser (u : User) : Json :=
  Json.obj [("id", jsonOfNat u.id), ("role", Json.str u.role)
    , ("name", Json.str u.name), ("email", Json.str u.email)
    , ("password", Json.str u.password)]

/-- Decode a user. -/
def deserializeUser : Json → Option User
  | Json.obj [("id", j), ("role", Json.str r), ("name", Json.str nm)
      , ("email", Json.str e), ("password", Json.str p)] =>
    (natOfJson j).map (fun i => { id := i, role := r, name := nm, email := e, password := p })
  | _ => none

/-- Encode a patient. -/
def serializePatient (p : Patient) : Json :=
  Json.obj [("id", jsonOfNat p.id), ("ownerId", Json.str p.ownerId)
    , ("name", Json.str p.name), ("relation", Json.str p.relation)
    , ("phone", Json.str p.phone), ("photo", jsonOfOptStr p.photo)]

/-- Decode a patient. -/
def deserializePatient : Json → Option Patient
  | Json.obj [("id", j), ("ownerId", Json.str o), ("name", Json.str nm)
      , ("relation", Json.str r), ("phone", Json.str ph), ("photo", jph)] =>
    match natOfJson j, optStrOfJson jph with
    | some i, some photo =>
      some { id := i, ownerId := o, name := nm, relation := r, phone := ph, photo := photo }
    | _, _ => none
  | _ => none

/-- Encode a location history entry. -/
def serializeLocation (l : LocationPoint) : Json :=
  Json.obj [("id", jsonOfNat l.id), ("userId", Json.str l.userId)
    , ("lat", Json.num l.lat), ("lng", Json.num l.lng), ("time", jsonOfNat l.time)]

/-- Decode a location history entry. -/
def deserializeLocation : Json → Option LocationPoint
  | Json.obj [("id", ji), ("userId", Json.str u), ("lat", Json.num la)
      , ("lng", Json.num ln), ("time", jt)] =>
    match natOfJson ji, natOfJson jt with
    | some i, some t =>
      some { id := i, userId := u, lat := la, lng := ln, time := t }
    | _, _ => none
  | _ => none

/-- Encode a medication. -/
def serializeMed (m : Med) : Json :=
  Json.obj [("id", Json.str m.id), ("name", Json.str m.name)
    , ("dose", Json.str m.dose), ("time", Json.str m.time)
    , ("forUser", jsonOfOptStr m.forUser), ("createdAt", jsonOfNat m.createdAt)]

/-- Decode a medication. -/
def deserializeMed : Json → Option Med
  | Json.obj [("id", Json.str i), ("name", Json.str nm), ("dose", Json.str d)
      , ("time", Json.str t), ("forUser", jf), ("createdAt", jc)] =>
    match optStrOfJson jf, natOfJson jc with
    | some f, some c =>
      some { id := i, name := nm, dose := d, time := t, forUser := f, createdAt := c }
    | _, _ => none
  | _ => none

/-- Encode a medication-taken record. -/
def serializeMedRecord (r : MedRecord) : Json :=
  Json.obj [("id", Json.str r.id), ("medId", Json.str r.medId)
    , ("by", Json.str r.by_), ("time", jsonOfNat r.time)]

/-- Decode a medication-taken record. -/
def deserializeMedRecord : Json → Option MedRecord
  | Json.obj [("id", Json.str i), ("medId", Json.str m), ("by", Json.str b)
      , ("time", jt)] =>
    (natOfJson jt).map (fun t => { id := i, medId := m, by_ := b, time := t })
  | _ => none

/-- Encode an appointment. -/
def serializeAppointment (a : Appointment) : Json :=
  Json.obj [("id", Json.str a.id), ("title", Json.str a.title)
    , ("time", jsonOfNat a.time), ("forUser", jsonOfOptStr a.forUser)
    , ("notes", Json.str a.notes), ("createdAt", jsonOfNat a.createdAt)]

/-- Decode an appointment. -/
def deserializeAppointment : Json → Option Appointment
  | Json.obj [("id", Json.str i), ("title", Json.str t), ("time", jt)
      , ("forUser", jf), ("notes", Json.str no), ("createdAt", jc)] =>
    match natOfJson jt, optStrOfJson jf, natOfJson jc with
    | some time, some f, some c =>
      some { id := i, title := t, time := time, forUser := f, notes := no, createdAt := c }
    | _, _, _ => none
  | _ => none

/-- Encode an optional attached appointment (`null` when absent). -/
def jsonOfOptAppt : Option Appointment → Json
  | some a => serializeAppointment a
  | none => Json.null

/-- Decode an optional attached appointment. -/
def optApptOfJson : Json → Option (Option Appointment)
  | Json.null => some none
  | j => (deserializeAppointment j).map some

/-- Encode a notification. -/
def serializeNotif (n : Notif) : Json :=
  Json.obj [("id", jsonOfNId n.id), ("type", Json.str n.type)
    , ("message", Json.str n.message), ("time", jsonOfNat n.time)
    , ("read", Json.bool n.read), ("from", jsonOfOptStr n.from_)
    , ("payload", n.payload), ("appointment", jsonOfOptAppt n.appointment)]

/-- Decode a notification. -/
def deserializeNotif : Json → Option Notif
  | Json.obj [("id", ji), ("type", Json.str ty), ("message", Json.str msg)
      , ("time", jt), ("read", Json.bool rd), ("from", jf)
      , ("payload", pl), ("appointment", ja)] =>
    match nidOfJson ji, natOfJson jt, optStrOfJson jf, optApptOfJson ja with
    | some i, some t, some f, some ap =>
      some { id := i, type := ty, message := msg, time := t, read := rd
             from_ := f, payload := pl, appointment := ap }
    | _, _, _, _ => none
  | _ => none

/-- Encode the lazily added `medHistory` (`null` when the key was
never created). -/
def jsonOfMedHistory : Option (List MedRecord) → Json
  | some h => Json.arr (h.map serializeMedRecord)
  | none => Json.null

/-- Decode the `medHistory` field. -/
def medHistoryOfJson : Json → Option (Option (List MedRecord))
  | Json.null => some none
  | Json.arr hs => (decodeList deserializeMedRecord hs).map some
  | _ => none

/-- Encode the whole document, as `JSON.stringify` lays it out. -/
def serializeDB (d : DB) : Json :=
  Json.obj [("users", Json.arr (d.users.map serializeUser))
    , ("patients", Json.arr (d.patients.map serializePatient))
    , ("caretakers", Json.arr d.caretakers)
    , ("notifications", Json.arr (d.notifications.map serializeNotif))
    , ("locationHistory", Json.arr (d.locationHistory.map serializeLocation))
    , ("meds", Json.arr (d.meds.map serializeMed))
    , ("journals", Json.arr d.journals)
    , ("appointments", Json.arr (d.appointments.map serializeAppointment))
    , ("webpushSubscriptions", Json.arr d.webpushSubscriptions)
    , ("medHistory", jsonOfMedHistory d.medHistory)]

/-- Decode a whole document. -/
def deserializeDB : Json → Option DB
  | Json.obj [("users", Json.arr us), ("patients", Json.arr ps)
      , ("caretakers", Json.arr cs), ("notifications", Json.arr ns)
      , ("locationHistory", Json.arr ls), ("meds", Json.arr ms)
      , ("journals", Json.arr js), ("appointments", Json.arr aps)
      , ("webpushSubscriptions", Json.arr ws), ("medHistory", jh)] =>
    match decodeList deserializeUser us, decodeList deserializePatient ps,
      decodeList deserializeNotif ns, decodeList deserializeLocation ls,
      decodeList deserializeMed ms, decodeList deserializeAppointment aps,
      medHistoryOfJson jh with
    | some users, some patients, some notifs, some locs, some meds, some appts, some mh =>
      some { users := users, patients := patients, caretakers := cs
             notifications := notifs, locationHistory := locs, meds := meds
             journals := js, appointments := appts, webpushSubscriptions := ws
             medHistory := mh }
    | _, _, _, _, _, _, _ => none
  | _ => none

/-! ## Durable storage (`database.json`) -/

/-- The state of the database file: absent, present but not valid JSON
(`JSON.parse` throws), or valid JSON text with parse tree `j`.  A file
that parses to JSON of the wrong shape is returned raw by the server;
our decoder yields `none` for it. -/
inductive Storage where
  | absent : Storage
  | corrupt : Storage
  | content (j : Json) : Storage
deriving Repr

/-- `writeDB(data)`: overwrite the file with the serialized
document. -/
def writeDB (d : DB) (_ : Storage) : Storage :=
  Storage.content (serializeDB d)

/-- `readDB()`: parse the file; on any read or parse error, write the
empty default document to the file and return it.  Returns the decoded
document together with the file state after the call. -/
def readDB : Storage → Option DB × Storage
  | Storage.absent => (some emptyDB, Storage.content (serializeDB emptyDB))
  | Storage.corrupt => (some emptyDB, Storage.content (serializeDB emptyDB))
  | Storage.content j => (deserializeDB j, Storage.content j)

/-! ## Theorems -/

/-- C4: the mark-read operation changes only the `read` field of the
notifications whose id strictly equals the route parameter; every
other field of every notification, every other entity sequence, and
the notification sequence length are unchanged, and no notification is
removed. -/
theorem markRead_frame (db : DB) (id : String) :
    (markRead db id).users = db.users ∧
    (markRead db id).patients = db.patients ∧
    (markRead db id).caretakers = db.caretakers ∧
    (markRead db id).locationHistory = db.locationHistory ∧
    (markRead db id).meds = db.meds ∧
    (markRead db id).journals = db.journals ∧
    (markRead db id).appointments = db.appointments ∧
    (markRead db id).webpushSubscriptions = db.webpushSubscriptions ∧
    (markRead db id).medHistory = db.medHistory ∧
    (markRead db id).notifications.length = db.notifications.length ∧
    List.Forall₂ (fun orig new =>
        new.id = orig.id ∧ new.type = orig.type ∧ new.message = orig.message ∧
        new.time = orig.time ∧ new.from_ = orig.from_ ∧ new.payload = orig.payload ∧
        new.appointment = orig.appointment ∧
        new.read = (if orig.id.strictEqStr id then true else orig.read))
      db.notifications (markRead db id).notifications := by
  refine ⟨rfl, rfl, rfl, rfl, rfl, rfl, rfl, rfl, rfl, ?_, ?_⟩
  · simp [markRead]
  · simp only [markRead, List.forall₂_map_right_iff]
    rw [List.forall₂_same]
    intro n _
    by_cases h : n.id.strictEqStr id <;> simp [markReadFn, h]

/-- C5: deleting a medication by id removes exactly the elements with
that id: membership in the new sequence is membership in the old one
with a different id, the surviving elements appear unchanged and in
order (a sublist), the id-set shrinks by exactly the given id, and no
other entity sequence changes. -/
theorem deleteMed_removes_exactly_id (db : DB) (id : String) :
    ((deleteMed db id).meds.map Med.id).toFinset = ((db.meds.map Med.id).toFinset).erase id ∧
    (deleteMed db id).meds.Sublist db.meds ∧
    (∀ m : Med, m ∈ (deleteMed db id).meds ↔ (m ∈ db.meds ∧ m.id ≠ id)) ∧
    (deleteMed db id).users = db.users ∧
    (deleteMed db id).patients = db.patients ∧
    (deleteMed db id).caretakers = db.caretakers ∧
    (deleteMed db id).notifications = db.notifications ∧
    (deleteMed db id).locationHistory = db.locationHistory ∧
    (deleteMed db id).journals = db.journals ∧
    (deleteMed db id).appointments = db.appointments ∧
    (deleteMed db id).webpushSubscriptions = db.webpushSubscriptions ∧
    (deleteMed db id).medHistory = db.medHistory := by
  refine ⟨?_, ?_, ?_, rfl, rfl, rfl, rfl, rfl, rfl, rfl, rfl, rfl⟩
  · ext x
    simp only [deleteMed, List.mem_toFinset, List.mem_map, List.mem_filter,
      bne_iff_ne, ne_eq, Finset.mem_erase]
    constructor
    · rintro ⟨m, ⟨hm, hne⟩, rfl⟩
      exact ⟨hne, m, hm, rfl⟩
    · rintro ⟨hne, m, hm, rfl⟩
      exact ⟨m, ⟨hm, hne⟩, rfl⟩
  · exact List.filter_sublist db.meds
  · intro m
    simp [deleteMed, List.mem_filter, bne_iff_ne]

/-- C8: each notification created by the `sos`, `journal`, or
`medicationUpdate` socket handler carries a numeric id, so the
mark-read map body (strict equality against the string route
parameter) leaves it entirely unchanged for every parameter value: its
`read` field stays `false` forever through the HTTP interface. -/
theorem socket_notifs_never_marked_read (p : SosPayload) (author : Option String)
    (pl : Json) (now : Nat) (s : String) :
    ((∃ k, (sosNotif p now).id = NId.ofNum k) ∧
      markReadFn s (sosNotif p now) = sosNotif p now ∧
      (markReadFn s (sosNotif p now)).read = false) ∧
    ((∃ k, (journalNotif author now).id = NId.ofNum k) ∧
      markReadFn s (journalNotif author now) = journalNotif author now ∧
      (markReadFn s (journalNotif author now)).read = false) ∧
    ((∃ k, (medUpdateNotif pl now).id = NId.ofNum k) ∧
      markReadFn s (medUpdateNotif pl now) = medUpdateNotif pl now ∧
      (markReadFn s (medUpdateNotif pl now)).read = false) := by
  refine ⟨⟨⟨now, rfl⟩, ?_, ?_⟩, ⟨⟨now, rfl⟩, ?_, ?_⟩, ⟨⟨now, rfl⟩, ?_, ?_⟩⟩ <;>
    simp [markReadFn, NId.strictEqStr, sosNotif, journalNotif, medUpdateNotif]

/-- C10: the mark-taken operation always appends exactly one record to
`medHistory` (created as the one-element extension of the possibly
absent history), answers `{ ok: true, record }` with that record
regardless of whether `medId` names an existing medication, and leaves
every other entity sequence unchanged. -/
theorem markTaken_always_appends (db : DB) (medId by_ : String) (now : Nat) :
    (markTaken db medId by_ now).2.medHistory =
      some (db.medHistory.getD [] ++ [(markTaken db medId by_ now).1.record]) ∧
    ((markTaken db medId by_ now).2.medHistory.getD []).length =
      (db.medHistory.getD []).length + 1 ∧
    (markTaken db medId by_ now).1.ok = true ∧
    (markTaken db medId by_ now).1.record =
      { id := toString now, medId := medId, by_ := by_, time := now } ∧
    (markTaken db medId by_ now).2.users = db.users ∧
    (markTaken db medId by_ now).2.patients = db.patients ∧
    (markTaken db medId by_ now).2.caretakers = db.caretakers ∧
    (markTaken db medId by_ now).2.notifications = db.notifications ∧
    (markTaken db medId by_ now).2.locationHistory = db.locationHistory ∧
    (markTaken db medId by_ now).2.meds = db.meds ∧
    (markTaken db medId by_ now).2.journals = db.journals ∧
    (markTaken db medId by_ now).2.appointments = db.appointments ∧
    (markTaken db medId by_ now).2.webpushSubscriptions = db.webpushSubscriptions := by
  refine ⟨rfl, ?_, rfl, rfl, rfl, rfl, rfl, rfl, rfl, rfl, rfl, rfl, rfl⟩
  simp [markTaken]

/-- The appointments of a document whose `time` lies in the half-open
window `(now, now + 60000]` — the selection the spec describes for the
reminder runner. -/
def windowAppointments (db : DB) (now : Nat) : List Appointment :=
  db.appointments.filter (fun a => decide (now < a.time) && decide (a.time ≤ now + 60000))

/-- The runner's filter coincides with the spec's window: the extra JS
truthiness conjunct `a.time &&` is subsumed by `a.time > now`. -/
lemma soonPred_eq_window (now : Nat) (a : Appointment) :
    soonPred now a = (decide (now < a.time) && decide (a.time ≤ now + 60000)) := by
  by_cases h : now < a.time
  · have hz : a.time ≠ 0 := by omega
    simp [soonPred, h, hz]
  · simp [soonPred, h]

/-- Unrolling the runner's `forEach` fold: it appends one synthesized
notification per handled appointment, emits the two events per
appointment in order, and dispatches each synthesized notification. -/
lemma foldl_tickStep (now : Nat) (l : List Appointment) (d : DB)
    (es : List Event) (ps : List Notif) :
    l.foldl (tickStep now) (d, es, ps) =
      ({ d with notifications := d.notifications ++ l.map (fun a => reminderNotif a now) },
        es ++ l.flatMap (fun a =>
          [Event.appointmentReminder a, Event.notification (reminderNotif a now)]),
        ps ++ l.map (fun a => reminderNotif a now)) := by
  induction l generalizing d es ps with
  | nil => simp
  | cons a t ih =>
    simp only [List.foldl_cons, tickStep, List.map_cons, List.flatMap_cons]
    rw [ih]
    simp [List.append_assoc]

/-- C2: on a tick at time `now`, the selected appointments are exactly
those with `time` in `(now, now + 60000]`; the runner appends one
notification per selected appointment to the persisted document,
broadcasts `appointmentReminder` and `notification` for each, and
invokes the push dispatcher once per selected appointment. -/
theorem tick_reminder_window_exact (db : DB) (now : Nat) :
    db.appointments.filter (soonPred now) = windowAppointments db now ∧
    tick db now =
      ({ db with notifications := db.notifications ++
            (windowAppointments db now).map (fun a => reminderNotif a now) },
        (windowAppointments db now).flatMap (fun a =>
          [Event.appointmentReminder a, Event.notification (reminderNotif a now)]),
        (windowAppointments db now).map (fun a => reminderNotif a now)) ∧
    (tick db now).1.notifications.length =
      db.notifications.length + (windowAppointments db now).length := by
  have hf : db.appointments.filter (soonPred now) = windowAppointments db now :=
    List.filter_congr (fun a _ => soonPred_eq_window now a)
  have ht : tick db now =
      ({ db with notifications := db.notifications ++
            (windowAppointments db now).map (fun a => reminderNotif a now) },
        (windowAppointments db now).flatMap (fun a =>
          [Event.appointmentReminder a, Event.notification (reminderNotif a now)]),
        (windowAppointments db now).map (fun a => reminderNotif a now)) := by
    rw [tick, hf, foldl_tickStep]
    simp
  refine ⟨hf, ht, ?_⟩
  rw [ht]
  simp

/-- Every per-subscription delivery promise settles fulfilled: the
chained `.catch` swallows any rejection. -/
lemma caught_eq_ok (r : Except String Unit) : caught r = Except.ok () := by
  cases r with
  | error e => rfl
  | ok u => cases u; rfl

/-- C3: with VAPID keys configured, the dispatcher attempts delivery
to every stored subscription — whatever the per-subscription failure
oracle says — every per-subscription outcome settles fulfilled, and
the overall call returns normally (all-settle join, never
fail-fast). -/
theorem sendWebPush_attempts_all_never_throws (env : PushEnv) (db : DB)
    (h1 : env.vapidPublic ≠ "") (h2 : env.vapidPrivate ≠ "") :
    (sendWebPushNotification env db).attempted = db.webpushSubscriptions ∧
    (∀ r ∈ (sendWebPushNotification env db).settled, r = Except.ok ()) ∧
    (sendWebPushNotification env db).result = Except.ok () := by
  have hc : (env.vapidPublic == "" || env.vapidPrivate == "") = false := by
    simp [h1, h2]
  refine ⟨?_, ?_, ?_⟩ <;>
    simp [sendWebPushNotification, hc, allSettled, Except.map, caught_eq_ok]

/-- Environment for the push witnesses: keys configured, every
delivery rejected by the oracle. -/
def pushEnvAllFail : PushEnv :=
  { vapidPublic := "pub", vapidPrivate := "priv", fails := fun _ => true }

/-- A document with two stored push subscriptions. -/
def pushDB : DB :=
  { emptyDB with webpushSubscriptions := [Json.str "sub1", Json.str "sub2"] }

/-- Witness for C3: with both subscriptions failing, both are still
attempted, both settle fulfilled, and the call returns normally. -/
theorem sendWebPush_attempts_all_never_throws_witness :
    (sendWebPushNotification pushEnvAllFail pushDB).attempted = pushDB.webpushSubscriptions ∧
    (∀ r ∈ (sendWebPushNotification pushEnvAllFail pushDB).settled, r = Except.ok ()) ∧
    (sendWebPushNotification pushEnvAllFail pushDB).result = Except.ok () :=
  sendWebPush_attempts_all_never_throws pushEnvAllFail pushDB
    (by decide) (by decide)

/-- C7: with either VAPID key unset, the dispatcher attempts no
delivery and returns normally — a non-throwing no-op. -/
theorem sendWebPush_unconfigured_noop (env : PushEnv) (db : DB)
    (h : env.vapidPublic = "" ∨ env.vapidPrivate = "") :
    (sendWebPushNotification env db).attempted = [] ∧
    (sendWebPushNotification env db).settled = [] ∧
    (sendWebPushNotification env db).result = Except.ok () := by
  have hc : (env.vapidPublic == "" || env.vapidPrivate == "") = true := by
    rcases h with h | h <;> simp [h]
  refine ⟨?_, ?_, ?_⟩ <;> simp [sendWebPushNotification, hc]

/-- Environment for the C7 witness: no keys configured. -/
def pushEnvUnset : PushEnv :=
  { vapidPublic := "", vapidPrivate := "", fails := fun _ => false }

/-- Witness for C7: with unset keys and stored subscriptions present,
nothing is attempted and the call returns normally. -/
theorem sendWebPush_unconfigured_noop_witness :
    (sendWebPushNotification pushEnvUnset pushDB).attempted = [] ∧
    (sendWebPushNotification pushEnvUnset pushDB).settled = [] ∧
    (sendWebPushNotification pushEnvUnset pushDB).result = Except.ok () :=
  sendWebPush_unconfigured_noop pushEnvUnset pushDB (Or.inl rfl)

/-- C9: when the database file is absent or unparsable, `readDB`
returns the empty default document and — before returning — overwrites
the file with its serialization, destroying any previous content. -/
theorem readDB_reinitializes_on_missing_or_corrupt (st : Storage)
    (h : st = Storage.absent ∨ st = Storage.corrupt) :
    readDB st = (some emptyDB, Storage.content (serializeDB emptyDB)) := by
  rcases h with h | h <;> rw [h] <;> rfl

/-- Witness for C9: a missing file is replaced by the serialized empty
document. -/
theorem readDB_reinitializes_witness :
    readDB Storage.absent = (some emptyDB, Storage.content (serializeDB emptyDB)) :=
  readDB_reinitializes_on_missing_or_corrupt Storage.absent (Or.inl rfl)

/-- A document whose user sequence already contains a user with email
`a@x`. -/
def dbWithUser : DB :=
  { emptyDB with users :=
      [{ id := 1, role := "caretaker", name := "A", email := "a@x", password := "pw" }] }

/-- Counterexample to C1 as stated: registering a second user with the
already-present email `a@x` answers the conflict with HTTP status 400,
not 409. -/
theorem register_duplicate_status_ne_409 :
    (∃ u ∈ dbWithUser.users, u.email = "a@x") ∧
    (register dbWithUser "patient" "B" "a@x" "pw2" 5).1.status = 400 ∧
    (register dbWithUser "patient" "B" "a@x" "pw2" 5).1.status ≠ 409 := by
  refine ⟨?_, ?_, ?_⟩ <;> decide

/-- C1 (amended): a registration request whose email some stored user
already has yields the conflict signal (`Email already exists`) with
HTTP status 400, and the document — in particular the user sequence
and its length — is unchanged, so nothing is rewritten with a new
user. -/
theorem register_duplicate_conflict (db : DB) (role name email password : String)
    (now : Nat) (h : ∃ u ∈ db.users, u.email = email) :
    (register db role name email password now).1.status = 400 ∧
    (register db role name email password now).1.message = "Email already exists" ∧
    (register db role name email password now).2 = db ∧
    (register db role name email password now).2.users.length = db.users.length := by
  have hs : (db.users.find? (fun u => u.email == email)).isSome := by
    rw [List.find?_isSome]
    obtain ⟨u, hu, he⟩ := h
    exact ⟨u, hu, by simp [he]⟩
  simp [register, hs]

/-- Witness for the amended C1: the duplicate registration against
`dbWithUser` conflicts with status 400 and leaves the document
untouched. -/
theorem register_duplicate_conflict_witness :
    (register dbWithUser "patient" "B" "a@x" "pw2" 5).1.status = 400 ∧
    (register dbWithUser "patient" "B" "a@x" "pw2" 5).1.message = "Email already exists" ∧
    (register dbWithUser "patient" "B" "a@x" "pw2" 5).2 = dbWithUser ∧
    (register dbWithUser "patient" "B" "a@x" "pw2" 5).2.users.length = dbWithUser.users.length :=
  register_duplicate_conflict dbWithUser "patient" "B" "a@x" "pw2" 5 (by decide)

/-- Decoding inverts encoding for timestamps. -/
lemma natOfJson_jsonOfNat (n : Nat) : natOfJson (jsonOfNat n) = some n := by
  simp [natOfJson, jsonOfNat]

/-- Decoding inverts encoding for optional strings. -/
lemma optStrOfJson_jsonOfOptStr (o : Option String) :
    optStrOfJson (jsonOfOptStr o) = some o := by
  cases o <;> rfl

/-- Decoding inverts encoding for notification ids. -/
lemma nidOfJson_jsonOfNId (i : NId) : nidOfJson (jsonOfNId i) = some i := by
  cases i <;> simp [jsonOfNId, jsonOfNat, nidOfJson]

/-- Decoding inverts encoding for users. -/
lemma deserializeUser_serializeUser (u : User) :
    deserializeUser (serializeUser u) = some u := by
  simp [serializeUser, deserializeUser, natOfJson_jsonOfNat]

/-- Decoding inverts encoding for patients. -/
lemma deserializePatient_serializePatient (p : Patient) :
    deserializePatient (serializePatient p) = some p := by
  simp [serializePatient, deserializePatient, natOfJson_jsonOfNat,
    optStrOfJson_jsonOfOptStr]

/-- Decoding inverts encoding for location history entries. -/
lemma deserializeLocation_serializeLocation (l : LocationPoint) :
    deserializeLocation (serializeLocation l) = some l := by
  simp [serializeLocation, deserializeLocation, natOfJson_jsonOfNat]

/-- Decoding inverts encoding for medications. -/
lemma deserializeMed_serializeMed (m : Med) :
    deserializeMed (serializeMed m) = some m := by
  simp [serializeMed, deserializeMed, natOfJson_jsonOfNat, optStrOfJson_jsonOfOptStr]

/-- Decoding inverts encoding for medication-taken records. -/
lemma deserializeMedRecord_serializeMedRecord (r : MedRecord) :
    deserializeMedRecord (serializeMedRecord r) = some r := by
  simp [serializeMedRecord, deserializeMedRecord, natOfJson_jsonOfNat]

/-- Decoding inverts encoding for appointments. -/
lemma deserializeAppointment_serializeAppointment (a : Appointment) :
    deserializeAppointment (serializeAppointment a) = some a := by
  simp [serializeAppointment, deserializeAppointment, natOfJson_jsonOfNat,
    optStrOfJson_jsonOfOptStr]

/-- Decoding inverts encoding for an optional attached appointment. -/
lemma optApptOfJson_jsonOfOptAppt (oa : Option Appointment) :
    optApptOfJson (jsonOfOptAppt oa) = some oa := by
  cases oa with
  | none => rfl
  | some a =>
    simp [jsonOfOptAppt, serializeAppointment, optApptOfJson,
      deserializeAppointment, natOfJson_jsonOfNat, optStrOfJson_jsonOfOptStr]

/-- Decoding inverts encoding for notifications. -/
lemma deserializeNotif_serializeNotif (n : Notif) :
    deserializeNotif (serializeNotif n) = some n := by
  simp [serializeNotif, deserializeNotif, nidOfJson_jsonOfNId, natOfJson_jsonOfNat,
    optStrOfJson_jsonOfOptStr, optApptOfJson_jsonOfOptAppt]

/-- Elementwise decoding inverts elementwise encoding. -/
lemma decodeList_map {α : Type} (f : α → Json) (g : Json → Option α)
    (h : ∀ x, g (f x) = some x) (l : List α) :
    decodeList g (l.map f) = some l := by
  induction l with
  | nil => rfl
  | cons a t ih => simp [decodeList, h, ih]

/-- Decoding inverts encoding for the lazily added `medHistory`. -/
lemma medHistoryOfJson_jsonOfMedHistory (mh : Option (List MedRecord)) :
    medHistoryOfJson (jsonOfMedHistory mh) = some mh := by
  cases mh with
  | none => rfl
  | some h =>
    simp [jsonOfMedHistory, medHistoryOfJson,
      decodeList_map _ _ deserializeMedRecord_serializeMedRecord]

set_option maxHeartbeats 1000000 in
/-- Decoding inverts encoding for the whole document. -/
lemma deserializeDB_serializeDB (d : DB) : deserializeDB (serializeDB d) = some d := by
  simp [serializeDB, deserializeDB,
    decodeList_map _ _ deserializeUser_serializeUser,
    decodeList_map _ _ deserializePatient_serializePatient,
    decodeList_map _ _ deserializeNotif_serializeNotif,
    decodeList_map _ _ deserializeLocation_serializeLocation,
    decodeList_map _ _ deserializeMed_serializeMed,
    decodeList_map _ _ deserializeAppointment_serializeAppointment,
    medHistoryOfJson_jsonOfMedHistory]

/-- C6: serialization round trip — any document written by `writeDB`
and then read back by `readDB` is field-for-field the document prior
to the write, and the file is exactly the serialized document. -/
theorem save_load_roundtrip (d : DB) (st : Storage) :
    deserializeDB (serializeDB d) = some d ∧
    readDB (writeDB d st) = (some d, writeDB d st) := by
  refine ⟨deserializeDB_serializeDB d, ?_⟩
  simp [readDB, writeDB, deserializeDB_serializeDB]
